import Mathlib

/-!
Shallow embedding of `scripts/cloudflare-migration.sh` (DNSimple → Cloudflare
DNS migration runner).  The script runs under `set -euo pipefail`; where that
interacts with a command's exit status (notably `((var++))`, whose exit status
is 1 when the old value is 0, and `local` outside a function), the embedding
records the resulting script abort in an explicit `aborted` flag.
-/

namespace CloudflareMigration

/-- The fixed `DOMAINS` array of the script (line 28). -/
def DOMAINS : List String :=
  ["eewby.com", "ellastrickland.com", "idlefusion.com", "katiestrickland.com", "mstrick.com"]

/-- One entry of the on-disk zone map (`.migration-state/zone-map.json`):
`{zone_id, nameservers: [ns1, ns2]}`. -/
structure ZoneRecord where
  zone_id : String
  ns1 : String
  ns2 : String
deriving DecidableEq

/-- The state store: the JSON object mapping domain → ZoneRecord, modelled as
an association list. -/
abbrev Store := List (String × ZoneRecord)

/-- Lookup of a domain's entry in the zone map. -/
def lookupZone : Store → String → Option ZoneRecord
  | [], _ => none
  | (d, zr) :: rest, x => if d = x then some zr else lookupZone rest x

/-- The jq update `.[$d] = {zone_id: ..., nameservers: [...]}`: replace the
entry for `d` if present, otherwise append it. -/
def setEntry : Store → String → ZoneRecord → Store
  | [], d, zr => [(d, zr)]
  | (d0, zr0) :: rest, d, zr =>
      if d0 = d then (d, zr) :: rest else (d0, zr0) :: setEntry rest d zr

/-- `zone_id_for` (lines 74–77): `jq -r '.[$d].zone_id // empty'`, i.e. the
stored zone id, or the empty string when the domain has no entry. -/
def zone_id_for (store : Store) (d : String) : String :=
  match lookupZone store d with
  | some zr => zr.zone_id
  | none => ""

/-- A DNSimple source record as extracted by the jq calls at lines 222–228.
`priority` is the output of `jq -r '.priority // empty'`: the empty string
when the record carries no priority, otherwise the decimal string. -/
structure DSRecord where
  type : String
  name : String
  content : String
  ttl : Nat
  priority : String
  system_record : Bool
deriving DecidableEq

/-- The structured body of a Cloudflare `dns_records` create call.  Numeric
fields that the shell splices into the JSON as untyped tokens (`priority`,
`weight`, `port`) are kept as the spliced string tokens. -/
inductive CFPayload where
  | simple (rtype name content : String) (ttl : Nat) (proxied : Bool)
  | mx (name content : String) (ttl : Nat) (priority : String)
  | txt (name content : String) (ttl : Nat)
  | srv (name service proto zoneName priority weight port target : String)
deriving DecidableEq

/-- HTTP method of an API call. -/
inductive Method where
  | GET
  | POST
  | PUT
  | DELETE
deriving DecidableEq

/-- The provider API calls the modelled steps can issue. -/
inductive ApiCall where
  | cfCreateZone (domain : String)
  | cfGetZoneByName (domain : String)
  | cfGetZone (zone_id : String)
  | cfListRecords (zone_id : String)
  | cfDeleteRecord (zone_id record_id : String)
  | cfCreateRecord (zone_id : String) (payload : CFPayload)
  | cfVerifyToken
  | dsWhoami
  | dsListRecords (domain : String)
deriving DecidableEq

/-- The HTTP method each call uses (`cf`/`ds` helpers, lines 54–71). -/
def ApiCall.method : ApiCall → Method
  | .cfCreateZone _ => .POST
  | .cfGetZoneByName _ => .GET
  | .cfGetZone _ => .GET
  | .cfListRecords _ => .GET
  | .cfDeleteRecord _ _ => .DELETE
  | .cfCreateRecord _ _ => .POST
  | .cfVerifyToken => .GET
  | .dsWhoami => .GET
  | .dsListRecords _ => .GET

/-- Log severities of the `info`/`warn`/`err` helpers. -/
inductive LogLevel where
  | info
  | warn
  | err
deriving DecidableEq

/-- One log line. -/
structure Log where
  level : LogLevel
  msg : String
deriving DecidableEq

/-- Split a character list at every occurrence of `c` (the common core of the
`awk` field splitting and `cut -d.` used by the SRV branch). -/
def splitOnChar (c : Char) : List Char → List (List Char)
  | [] => [[]]
  | x :: xs =>
      let r := splitOnChar c xs
      if x = c then [] :: r
      else
        match r with
        | [] => [[x]]
        | g :: gs => (x :: g) :: gs

/-- `awk '\x7bprint $k\x7d'`: split on blanks, drop empty fields, take the
k-th (1-based), empty when out of range. -/
def awkField (s : String) (k : Nat) : String :=
  ⟨((splitOnChar ' ' s.data).filter (· ≠ [])).getD (k - 1) []⟩

/-- `cut -d. -fk`: k-th dot-separated field (1-based); a line without the
delimiter is passed through whole; a missing field is empty. -/
def cutDotField (s : String) (k : Nat) : String :=
  let parts := splitOnChar '.' s.data
  if parts.length = 1 then s else ⟨parts.getD (k - 1) []⟩

/-- `sed 's/\.$//'`: strip one trailing dot. -/
def stripTrailingDot (s : String) : String :=
  match s.data.getLast? with
  | some '.' => ⟨s.data.dropLast⟩
  | _ => s

/-- The natural number a decimal token denotes once spliced unquoted into the
JSON request body (how the target API reads the `weight`/`port` tokens). -/
def tokenNatAux : List Char → Nat → Nat
  | [], acc => acc
  | c :: cs, acc => tokenNatAux cs (acc * 10 + (c.toNat - '0'.toNat))

/-- Decimal denotation of a spliced token. -/
def tokenDenotes (s : String) : Nat := tokenNatAux s.data 0

/-- Lines 236–241: map the empty DNSimple name to `@` for Cloudflare. -/
def cfName (name : String) : String :=
  if name = "" then "@" else name

/-- Outcome of processing one source record (or of a whole per-domain loop):
issued create calls, log lines, the running `created`/`skipped` counters, and
whether `set -e` aborted the script. -/
structure RecOut where
  calls : List ApiCall
  logs : List Log
  created : Nat
  skipped : Nat
  aborted : Bool
deriving DecidableEq

/-- The body of the record loop of `step_create_records` (lines 221–318) for
one source record.  `ok zid p` tells whether the Cloudflare create call for
payload `p` on zone `zid` succeeds (`create_cf_record`'s success flag); a
successful create runs `((created++))`, which is protected by `&& ... || true`
and never aborts.  The `((skipped++))` in the `URL` and default branches is a
plain command: when the old counter is 0 its exit status is 1 and
`set -euo pipefail` aborts the script (the increment itself still happens). -/
def processRecord (ok : String → CFPayload → Bool) (zone_id domain : String)
    (r : DSRecord) (created skipped : Nat) : RecOut :=
  if r.system_record then
    { calls := [], logs := [], created := created, skipped := skipped, aborted := false }
  else
    let cn := cfName r.name
    if r.type = "A" ∨ r.type = "AAAA" then
      let p := CFPayload.simple r.type cn r.content 1 false
      { calls := [.cfCreateRecord zone_id p],
        logs := [⟨.info, "  " ++ r.type ++ " " ++ cn ++ " → " ++ r.content⟩],
        created := if ok zone_id p then created + 1 else created,
        skipped := skipped, aborted := false }
    else if r.type = "CNAME" then
      let p := CFPayload.simple "CNAME" cn r.content 1 false
      { calls := [.cfCreateRecord zone_id p],
        logs := [⟨.info, "  CNAME " ++ cn ++ " → " ++ r.content⟩],
        created := if ok zone_id p then created + 1 else created,
        skipped := skipped, aborted := false }
    else if r.type = "ALIAS" then
      let p := CFPayload.simple "CNAME" cn r.content 1 false
      { calls := [.cfCreateRecord zone_id p],
        logs := [⟨.info, "  CNAME " ++ cn ++ " → " ++ r.content ++ " (from ALIAS, DNS-only)"⟩],
        created := if ok zone_id p then created + 1 else created,
        skipped := skipped, aborted := false }
    else if r.type = "MX" then
      let prio := if r.priority = "" then "10" else r.priority
      let p := CFPayload.mx cn r.content 1 prio
      { calls := [.cfCreateRecord zone_id p],
        logs := [⟨.info, "  MX " ++ cn ++ " → " ++ r.content ++ " (pri: " ++ r.priority ++ ")"⟩],
        created := if ok zone_id p then created + 1 else created,
        skipped := skipped, aborted := false }
    else if r.type = "TXT" then
      let p := CFPayload.txt cn r.content 1
      { calls := [.cfCreateRecord zone_id p],
        logs := [⟨.info, "  TXT " ++ cn ++ " → " ++ r.content⟩],
        created := if ok zone_id p then created + 1 else created,
        skipped := skipped, aborted := false }
    else if r.type = "SRV" then
      let weight := awkField r.content 1
      let port := awkField r.content 2
      let target := stripTrailingDot (awkField r.content 3)
      let service := cutDotField r.name 1
      let proto := cutDotField r.name 2
      let prio := if r.priority = "" then "0" else r.priority
      let p := CFPayload.srv (r.name ++ "." ++ domain) service proto domain prio weight port target
      { calls := [.cfCreateRecord zone_id p],
        logs := [⟨.info, "  SRV " ++ r.name ++ " → " ++ target ++ ":" ++ port⟩],
        created := if ok zone_id p then created + 1 else created,
        skipped := skipped, aborted := false }
    else if r.type = "URL" then
      let p := CFPayload.simple "A" cn "192.0.2.1" 1 true
      { calls := if cn ≠ "@" then [.cfCreateRecord zone_id p] else [],
        logs := [⟨.warn, "  URL " ++ cn ++ " → " ++ r.content ++ " (redirect rule needed)"⟩] ++
          (if cn ≠ "@" then
            [⟨.info, "    Creating proxied A record: " ++ cn ++ " → 192.0.2.1"⟩] else []),
        created := if cn ≠ "@" ∧ ok zone_id p then created + 1 else created,
        skipped := skipped + 1,
        aborted := skipped = 0 }
    else
      { calls := [],
        logs := [⟨.warn, "  Skipping unknown type: " ++ r.type ++ " " ++ cn ++ " → " ++ r.content⟩],
        created := created, skipped := skipped + 1,
        aborted := skipped = 0 }

/-- The whole `while IFS= read -r record` loop over a domain's source records:
fold `processRecord`, stopping when `set -e` aborts the script. -/
def processRecords (ok : String → CFPayload → Bool) (zone_id domain : String) :
    List DSRecord → Nat → Nat → RecOut
  | [], created, skipped =>
      { calls := [], logs := [], created := created, skipped := skipped, aborted := false }
  | r :: rs, created, skipped =>
      let o := processRecord ok zone_id domain r created skipped
      if o.aborted then o
      else
        let rest := processRecords ok zone_id domain rs o.created o.skipped
        { calls := o.calls ++ rest.calls, logs := o.logs ++ rest.logs,
          created := rest.created, skipped := rest.skipped, aborted := rest.aborted }

/-- The `for id in $ids` loop of `clear_zone_records` (lines 166–169): issue a
DELETE per record id (guarded by `|| true`), then run `((count++))` as a plain
command — when `count` was 0 its exit status is 1 and `set -e` aborts the
script right after the first deletion. -/
def clearLoop (zone_id : String) : List String → Nat → List ApiCall × Nat × Bool
  | [], count => ([], count, false)
  | rid :: rest, count =>
      if count = 0 then ([.cfDeleteRecord zone_id rid], count + 1, true)
      else
        let (cs, c, a) := clearLoop zone_id rest (count + 1)
        (.cfDeleteRecord zone_id rid :: cs, c, a)

/-- `clear_zone_records` (lines 158–174): list the zone's records, then run
the deletion loop.  (The closing `warn "cleared $count"` line is unreachable
with a positive count because the loop aborts first; it is not modelled.) -/
def clear_zone_records (recordIds : List String) (zone_id : String) :
    List ApiCall × Bool :=
  let (cs, _, a) := clearLoop zone_id recordIds 0
  (.cfListRecords zone_id :: cs, a)

/-- External-world responses for `step_create_records`: which record ids a
Cloudflare zone currently holds, which records DNSimple returns for a domain,
and whether a given create call succeeds. -/
structure Env where
  cfZoneRecords : String → List String
  dsRecords : String → List DSRecord
  createOk : String → CFPayload → Bool

/-- The per-domain body of `step_create_records` (lines 197–321): a domain
without a stored zone id gets an error log and nothing else; otherwise clear
the target zone, fetch the DNSimple records and process them (counters start
at 0 for each domain, line 218).  Screen-only info lines (headers, fetch
counts, summaries) are not modelled. -/
def processDomain (env : Env) (store : Store) (domain : String) : RecOut :=
  let zid := zone_id_for store domain
  if zid = "" then
    { calls := [], logs := [⟨.err, domain ++ " — no zone ID found, run add-zones first"⟩],
      created := 0, skipped := 0, aborted := false }
  else
    let (clearCalls, clearAborted) := clear_zone_records (env.cfZoneRecords zid) zid
    if clearAborted then
      { calls := clearCalls, logs := [], created := 0, skipped := 0, aborted := true }
    else
      let o := processRecords env.createOk zid domain (env.dsRecords domain) 0 0
      { calls := clearCalls ++ [.dsListRecords domain] ++ o.calls, logs := o.logs,
        created := o.created, skipped := o.skipped, aborted := o.aborted }

/-- `step_create_records` (lines 194–323): the domain loop, stopping when a
`set -e` abort terminates the script. -/
def step_create_records (env : Env) (store : Store) : List String → List ApiCall × List Log × Bool
  | [] => ([], [], false)
  | d :: ds =>
      let o := processDomain env store d
      if o.aborted then (o.calls, o.logs, true)
      else
        let (cs, ls, a) := step_create_records env store ds
        (o.calls ++ cs, o.logs ++ ls, a)

/-- Cloudflare's answer to `POST /zones` for a domain, as the script
distinguishes the cases (lines 107–146): success with a zone id and two
nameservers; an "already exists" error, after which `GET /zones?name=` yields
the existing zone's id and nameservers; or any other error. -/
inductive CreateZoneResp where
  | ok (zone_id ns1 ns2 : String)
  | already (zone_id ns1 ns2 : String)
  | failed (msg : String)
deriving DecidableEq

/-- The per-domain body of `step_add_zones` (lines 96–148): skip the domain
when the stored zone id is non-empty; otherwise `POST /zones` and record the
resulting entry (falling back to `GET /zones?name=` on "already exists"; on
any other error the state is left untouched). -/
def addZoneDomain (env : String → CreateZoneResp) (store : Store) (d : String) :
    Store × List ApiCall :=
  if zone_id_for store d ≠ "" then (store, [])
  else
    match env d with
    | .ok z n1 n2 => (setEntry store d ⟨z, n1, n2⟩, [.cfCreateZone d])
    | .already z n1 n2 => (setEntry store d ⟨z, n1, n2⟩, [.cfCreateZone d, .cfGetZoneByName d])
    | .failed _ => (store, [.cfCreateZone d])

/-- `step_add_zones` (lines 87–153): the domain loop, threading the state
store and accumulating the issued API calls. -/
def step_add_zones (env : String → CreateZoneResp) (store : Store) :
    List String → Store × List ApiCall
  | [] => (store, [])
  | d :: ds =>
      let (s1, t1) := addZoneDomain env store d
      let (s2, t2) := step_add_zones env s1 ds
      (s2, t1 ++ t2)

/-- A zone-create response that resolves to a usable (non-empty) zone id. -/
def respResolves : CreateZoneResp → Bool
  | .ok z _ _ => z ≠ ""
  | .already z _ _ => z ≠ ""
  | .failed _ => false

/-- An environment where every listed domain's zone creation resolves (either
freshly created or found via the "already exists" fallback). -/
def envGood (env : String → CreateZoneResp) (ds : List String) : Prop :=
  ∀ d ∈ ds, respResolves (env d) = true

instance (env : String → CreateZoneResp) (ds : List String) :
    Decidable (envGood env ds) := by
  unfold envGood; infer_instance

/-- `validate_tokens` (lines 541–561): one GET against each provider. -/
def validate_tokens_calls : List ApiCall := [.cfVerifyToken, .dsWhoami]

/-- The hard-coded runeasy.app zone id checked by `step_verify` (line 437). -/
def runeasyZoneId : String := "f922dcb27d4db9d1fa2809a5c8b72a50"

/-- The provider API calls of `step_verify` (lines 414–494): one
`GET /zones/{id}` per domain with a stored zone id, plus the runeasy.app zone
status check.  The remaining probes (`dig`, `curl` against the public sites)
are plain DNS lookups and HTTP GET/HEAD fetches, not provider API calls. -/
def step_verify_calls (store : Store) : List String → List ApiCall
  | [] => [.cfGetZone runeasyZoneId]
  | d :: ds =>
      (if zone_id_for store d = "" then [] else [.cfGetZone (zone_id_for store d)]) ++
        step_verify_calls store ds

/-- Result of the `verify` CLI entry: the state file after the run (`none`
means it does not exist), the provider API calls issued, and whether the
script aborted. -/
structure VerifyOut where
  stateFile : Option Store
  calls : List ApiCall
  aborted : Bool
deriving DecidableEq

/-- The `verify)` branch of the CLI dispatch (lines 611–633).  When the state
file is absent the script creates it with `\x7b\x7d` (an empty store) and then
enters the zone-fetch loop, whose first line is `local result zone_id ns1 ns2`
at script top level; `local` outside a function fails, so `set -e` aborts the
script before any API call — but with the freshly written empty state file
left on disk.  When the state file exists, the script validates the tokens and
runs `step_verify`; the store is never written. -/
def verify_entry (stateFile : Option Store) : VerifyOut :=
  match stateFile with
  | none => { stateFile := some [], calls := [], aborted := true }
  | some store =>
      { stateFile := some store,
        calls := validate_tokens_calls ++ step_verify_calls store DOMAINS,
        aborted := false }

/-- The seven named steps of the CLI. -/
inductive StepName where
  | addZones
  | createRecords
  | createRedirects
  | switchNs
  | verify
  | unlock
  | all
deriving DecidableEq

/-- What the CLI case statement decides: run a step, or print the usage line
and exit with the given status. -/
inductive DispatchResult where
  | runStep (s : StepName)
  | usage (exitCode : Nat)
deriving DecidableEq

/-- The valid step arguments of the `case` statement (lines 606–640). -/
def validSteps : List String :=
  ["add-zones", "create-records", "create-redirects", "switch-ns", "verify", "unlock", "all"]

/-- The CLI entry `case "${1:-all}" in ...` (lines 606–640).  `${1:-all}`
substitutes `all` when the argument is absent or empty. -/
def dispatch (arg : Option String) : DispatchResult :=
  let a := match arg with
    | none => "all"
    | some s => if s = "" then "all" else s
  if a = "add-zones" then .runStep .addZones
  else if a = "create-records" then .runStep .createRecords
  else if a = "create-redirects" then .runStep .createRedirects
  else if a = "switch-ns" then .runStep .switchNs
  else if a = "verify" then .runStep .verify
  else if a = "unlock" then .runStep .unlock
  else if a = "all" then .runStep .all
  else .usage 1

/-! ### Concrete fixtures used by witnesses and counterexamples -/

/-- A create-call oracle under which every Cloudflare create succeeds. -/
def okAll : String → CFPayload → Bool := fun _ _ => true

/-- A store holding one migrated domain. -/
def storeOne : Store := [("eewby.com", ⟨"z1", "ali.ns.cloudflare.com", "kia.ns.cloudflare.com"⟩)]

/-- An environment whose target zone is empty and whose source record set for
any domain starts with an unrecognized `SPF` record followed by an `A` record. -/
def envUnknownType : Env :=
  { cfZoneRecords := fun _ => [],
    dsRecords := fun _ =>
      [⟨"SPF", "", "v=spf1 -all", 3600, "", false⟩,
       ⟨"A", "www", "192.0.2.7", 3600, "", false⟩],
    createOk := fun _ _ => true }

/-- An environment whose target zone holds two auto-imported records and whose
source provider has one record to migrate. -/
def envTwoImports : Env :=
  { cfZoneRecords := fun _ => ["rec1", "rec2"],
    dsRecords := fun _ => [⟨"A", "www", "192.0.2.7", 3600, "", false⟩],
    createOk := fun _ _ => true }

end CloudflareMigration

namespace CloudflareMigration

/-! ### Claims -/

/-- C7: a source SRV record with name `_sip._tcp` and content
`10 5060 sip.example.com.` is recreated with service `_sip`, proto `_tcp`,
weight token `10`, port token `5060` (spliced unquoted into the JSON body,
hence the numbers 10 and 5060), target `sip.example.com` with the trailing
dot stripped, and SRV priority defaulting to 0. -/
theorem srv_record_parsing :
    processRecord okAll "z1" "example.com"
        ⟨"SRV", "_sip._tcp", "10 5060 sip.example.com.", 3600, "", false⟩ 0 0 =
      { calls := [.cfCreateRecord "z1"
          (.srv "_sip._tcp.example.com" "_sip" "_tcp" "example.com" "0" "10" "5060"
            "sip.example.com")],
        logs := [⟨.info, "  SRV _sip._tcp → sip.example.com:5060"⟩],
        created := 1, skipped := 0, aborted := false } ∧
    tokenDenotes "10" = 10 ∧ tokenDenotes "5060" = 5060 := by
  decide

/-- C2 (code bug): the first record of unrecognized type is logged and counted
as skipped with no create call issued for it, but `((skipped++))` with the
counter at 0 has exit status 1, so `set -euo pipefail` aborts the whole script
right there: the following `A www` record of the same domain is never
created, contradicting the claim that execution continues. -/
theorem unknown_type_first_skip_aborts :
    processDomain envUnknownType storeOne "eewby.com" =
      { calls := [.cfListRecords "z1", .dsListRecords "eewby.com"],
        logs := [⟨.warn, "  Skipping unknown type: SPF @ → v=spf1 -all"⟩],
        created := 0, skipped := 1, aborted := true } ∧
    step_create_records envUnknownType storeOne ["eewby.com"] =
      ([.cfListRecords "z1", .dsListRecords "eewby.com"],
       [⟨.warn, "  Skipping unknown type: SPF @ → v=spf1 -all"⟩], true) := by
  constructor <;> decide

/-- C6 (code bug): for a domain whose target zone holds two auto-imported
records, `clear_zone_records` deletes only the first one before
`((count++))` (exit status 1 at count 0) makes `set -e` abort the script:
the second record is never deleted and the source provider's record set is
never fetched, although it is non-empty. -/
theorem clear_zone_aborts_after_first_delete :
    processDomain envTwoImports storeOne "eewby.com" =
      { calls := [.cfListRecords "z1", .cfDeleteRecord "z1" "rec1"],
        logs := [], created := 0, skipped := 0, aborted := true } ∧
    envTwoImports.dsRecords "eewby.com" ≠ [] := by
  constructor <;> decide

/-- C3 counterexample: a `URL` record whose source name is empty maps to `@`,
and the code's `cf_name != "@"` guard then creates no placeholder A record at
all; and for a non-apex `URL` record whose placeholder create succeeds, the
`created` counter is incremented (from 5 to 6 here), so the record is not
counted "as skipped rather than created". -/
theorem url_placeholder_counterexample :
    (processRecord okAll "z1" "mstrick.com"
        ⟨"URL", "", "https://example.com/page", 3600, "", false⟩ 5 3).calls = [] ∧
    (processRecord okAll "z1" "mstrick.com"
        ⟨"URL", "hire", "https://mstrick.com/hire", 3600, "", false⟩ 5 3).created = 6 := by
  constructor <;> decide

/-- C9 counterexample: the empty string is an argument outside the accepted
step set, yet `${1:-all}` substitutes `all` for an empty first argument, so
the script runs the `all` step instead of printing usage and exiting 1. -/
theorem dispatch_empty_arg_counterexample :
    dispatch (some "") = .runStep .all ∧ "" ∉ validSteps := by
  constructor <;> decide

/-- C4 counterexample: running the `verify` entry with no state file present
writes a fresh (empty) state file to disk before anything else, so the state
store is mutated by a verify run. -/
theorem verify_state_mutation_counterexample :
    (verify_entry none).stateFile = some [] ∧ (verify_entry none).stateFile ≠ none := by
  constructor <;> decide

/-- C8: a source MX record with no explicit priority (the empty priority
string from `jq -r '.priority // empty'`) is recreated with the default
priority token `10` via `${priority:-10}`; an explicit priority is spliced
through unchanged. -/
theorem mx_priority_default (ok : String → CFPayload → Bool) (zone_id domain : String)
    (r : DSRecord) (created skipped : Nat) (hty : r.type = "MX")
    (hsys : r.system_record = false) :
    (r.priority = "" →
      (processRecord ok zone_id domain r created skipped).calls =
        [.cfCreateRecord zone_id (.mx (cfName r.name) r.content 1 "10")]) ∧
    (r.priority ≠ "" →
      (processRecord ok zone_id domain r created skipped).calls =
        [.cfCreateRecord zone_id (.mx (cfName r.name) r.content 1 r.priority)]) := by
  constructor <;> intro hp <;> simp [processRecord, hty, hsys, hp]

/-- Witness for C8 at concrete MX records, one without and one with an
explicit priority. -/
theorem mx_priority_default_witness :
    (processRecord okAll "z1" "eewby.com"
        ⟨"MX", "", "mail.example.com", 3600, "", false⟩ 0 0).calls =
      [.cfCreateRecord "z1" (.mx "@" "mail.example.com" 1 "10")] ∧
    (processRecord okAll "z1" "eewby.com"
        ⟨"MX", "", "mail.example.com", 3600, "5", false⟩ 0 0).calls =
      [.cfCreateRecord "z1" (.mx "@" "mail.example.com" 1 "5")] :=
  ⟨(mx_priority_default okAll "z1" "eewby.com" _ 0 0 rfl rfl).1 rfl,
   (mx_priority_default okAll "z1" "eewby.com" _ 0 0 rfl rfl).2 (by decide)⟩

/-- C10: a source record with `system_record = true` is silently passed over
by the `continue` at lines 231–233: no create call, no log line, neither
counter moves, no abort, and the loop over the remaining records proceeds as
if the record were not there. -/
theorem system_records_not_migrated (ok : String → CFPayload → Bool)
    (zone_id domain : String) (r : DSRecord) (created skipped : Nat)
    (h : r.system_record = true) :
    processRecord ok zone_id domain r created skipped =
      { calls := [], logs := [], created := created, skipped := skipped, aborted := false } ∧
    ∀ rs, processRecords ok zone_id domain (r :: rs) created skipped =
      processRecords ok zone_id domain rs created skipped := by
  have h1 : processRecord ok zone_id domain r created skipped =
      { calls := [], logs := [], created := created, skipped := skipped, aborted := false } := by
    simp [processRecord, h]
  exact ⟨h1, fun rs => by simp [processRecords, h1]⟩

/-- Witness for C10 at a concrete system NS record. -/
theorem system_records_not_migrated_witness :
    processRecord okAll "z1" "eewby.com"
        ⟨"NS", "", "ns1.dnsimple.com", 3600, "", true⟩ 4 2 =
      { calls := [], logs := [], created := 4, skipped := 2, aborted := false } :=
  (system_records_not_migrated okAll "z1" "eewby.com" _ 4 2 rfl).1

/-- C3 amended: every non-system `URL` record is flagged with a warn that a
redirect rule is needed and bumps the skip counter; when its Cloudflare name
is not the apex `@`, a placeholder proxied A record pointing at 192.0.2.1 is
created at that name and a successful placeholder create also bumps the
created counter; when the name maps to `@`, no placeholder is created. -/
theorem url_record_amended (ok : String → CFPayload → Bool) (zone_id domain : String)
    (r : DSRecord) (created skipped : Nat) (hty : r.type = "URL")
    (hsys : r.system_record = false) :
    (processRecord ok zone_id domain r created skipped).skipped = skipped + 1 ∧
    (⟨.warn, "  URL " ++ cfName r.name ++ " → " ++ r.content ++ " (redirect rule needed)"⟩ : Log) ∈
      (processRecord ok zone_id domain r created skipped).logs ∧
    (cfName r.name ≠ "@" →
      (processRecord ok zone_id domain r created skipped).calls =
        [.cfCreateRecord zone_id (.simple "A" (cfName r.name) "192.0.2.1" 1 true)] ∧
      (processRecord ok zone_id domain r created skipped).created =
        (if ok zone_id (.simple "A" (cfName r.name) "192.0.2.1" 1 true) then created + 1
         else created)) ∧
    (cfName r.name = "@" →
      (processRecord ok zone_id domain r created skipped).calls = [] ∧
      (processRecord ok zone_id domain r created skipped).created = created) := by
  by_cases hn : cfName r.name = "@" <;>
    simp [processRecord, hty, hsys, hn]

/-- Witness for C3's amended statement at a concrete non-apex URL record. -/
theorem url_record_amended_witness :
    (processRecord okAll "z9" "mstrick.com"
        ⟨"URL", "hire", "https://mstrick.com/hire", 3600, "", false⟩ 0 0).skipped = 0 + 1 ∧
    (processRecord okAll "z9" "mstrick.com"
        ⟨"URL", "hire", "https://mstrick.com/hire", 3600, "", false⟩ 0 0).calls =
      [.cfCreateRecord "z9" (.simple "A" "hire" "192.0.2.1" 1 true)] := by
  have h := url_record_amended okAll "z9" "mstrick.com"
    ⟨"URL", "hire", "https://mstrick.com/hire", 3600, "", false⟩ 0 0 rfl rfl
  exact ⟨h.1, (h.2.2.1 (by decide)).1⟩

/-- C5: a domain whose stored zone id is empty gets exactly the error log
`… — no zone ID found, run add-zones first`, no provider API call at all (no
clear, no fetch, no create), no abort, and the domain loop carries on with
the remaining domains unchanged. -/
theorem create_records_missing_zone (env : Env) (store : Store) (d : String)
    (h : zone_id_for store d = "") :
    processDomain env store d =
      { calls := [], logs := [⟨.err, d ++ " — no zone ID found, run add-zones first"⟩],
        created := 0, skipped := 0, aborted := false } ∧
    ∀ rest, step_create_records env store (d :: rest) =
      ((step_create_records env store rest).1,
       ⟨.err, d ++ " — no zone ID found, run add-zones first"⟩ ::
         (step_create_records env store rest).2.1,
       (step_create_records env store rest).2.2) := by
  have h1 : processDomain env store d =
      { calls := [], logs := [⟨.err, d ++ " — no zone ID found, run add-zones first"⟩],
        created := 0, skipped := 0, aborted := false } := by
    simp [processDomain, h]
  refine ⟨h1, fun rest => ?_⟩
  rcases h2 : step_create_records env store rest with ⟨cs, ls, a⟩
  simp [step_create_records, h1, h2]

/-- Witness for C5: a domain absent from an empty store. -/
theorem create_records_missing_zone_witness :
    processDomain envUnknownType [] "idlefusion.com" =
      { calls := [],
        logs := [⟨.err, "idlefusion.com — no zone ID found, run add-zones first"⟩],
        created := 0, skipped := 0, aborted := false } :=
  (create_records_missing_zone envUnknownType [] "idlefusion.com" rfl).1

/-- C9 amended: no argument selects `all`; each of the seven step names
selects its step; the empty-string argument is treated like an absent one by
`${1:-all}` and also selects `all`; every other argument outside the step set
reaches the default case, which prints usage and exits with status 1. -/
theorem dispatch_spec :
    (dispatch none = .runStep .all ∧
     dispatch (some "add-zones") = .runStep .addZones ∧
     dispatch (some "create-records") = .runStep .createRecords ∧
     dispatch (some "create-redirects") = .runStep .createRedirects ∧
     dispatch (some "switch-ns") = .runStep .switchNs ∧
     dispatch (some "verify") = .runStep .verify ∧
     dispatch (some "unlock") = .runStep .unlock ∧
     dispatch (some "all") = .runStep .all ∧
     dispatch (some "") = .runStep .all) ∧
    ∀ a : String, a ∉ validSteps → a ≠ "" → dispatch (some a) = .usage 1 := by
  refine ⟨by decide, fun a ha hne => ?_⟩
  simp [validSteps] at ha
  obtain ⟨h1, h2, h3, h4, h5, h6, h7⟩ := ha
  simp [dispatch, hne, h1, h2, h3, h4, h5, h6, h7]

/-- Witness for C9's amended statement at a concrete bad argument. -/
theorem dispatch_spec_witness : dispatch (some "push-zones") = .usage 1 :=
  dispatch_spec.2 "push-zones" (by decide) (by decide)

/-- Every provider API call of `step_verify`'s zone-status loop is a GET. -/
theorem step_verify_calls_GET (store : Store) :
    ∀ (ds : List String) (c : ApiCall), c ∈ step_verify_calls store ds →
      c.method = Method.GET := by
  intro ds
  induction ds with
  | nil =>
      intro c hc
      simp [step_verify_calls] at hc
      simp [hc, ApiCall.method]
  | cons d rest ih =>
      intro c hc
      simp only [step_verify_calls, List.mem_append] at hc
      rcases hc with hc | hc
      · by_cases hz : zone_id_for store d = ""
        · simp [hz] at hc
        · simp [hz] at hc
          simp [hc, ApiCall.method]
      · exact ih c hc

/-- C4 amended: every provider API call a `verify` run issues — token
validation and zone status checks — is a GET (zero POST/PUT/DELETE calls),
and when the state file exists the store is passed through unchanged; but
when the state file is absent, the entry creates it (see the
counterexample), so "no state is mutated" holds only in that case. -/
theorem verify_read_only (st : Option Store) :
    (∀ c ∈ (verify_entry st).calls, c.method = Method.GET) ∧
    (∀ store, st = some store → (verify_entry st).stateFile = some store ∧
      (verify_entry st).aborted = false) := by
  constructor
  · match st with
    | none => intro c hc; simp [verify_entry] at hc
    | some store =>
        intro c hc
        simp only [verify_entry, validate_tokens_calls, List.mem_append, List.mem_cons,
          List.mem_singleton] at hc
        rcases hc with (rfl | rfl | hc) | hc
        · rfl
        · rfl
        · exact absurd hc (List.not_mem_nil c)
        · exact step_verify_calls_GET store DOMAINS c hc
  · rintro store rfl
    exact ⟨rfl, rfl⟩

/-- Witness for C4's amended statement at a concrete existing store. -/
theorem verify_read_only_witness :
    (ApiCall.cfVerifyToken.method = Method.GET) ∧
    (verify_entry (some storeOne)).stateFile = some storeOne :=
  ⟨(verify_read_only (some storeOne)).1 .cfVerifyToken (by decide),
   ((verify_read_only (some storeOne)).2 storeOne rfl).1⟩

/-! ### Lemmas about the zone map and `step_add_zones` -/

/-- `setEntry` looks up as a pointwise update. -/
theorem lookupZone_setEntry (s : Store) (d0 d : String) (zr : ZoneRecord) :
    lookupZone (setEntry s d0 zr) d = if d0 = d then some zr else lookupZone s d := by
  induction s with
  | nil => by_cases h : d0 = d <;> simp [setEntry, lookupZone, h]
  | cons hd tl ih =>
      obtain ⟨d1, zr1⟩ := hd
      by_cases h1 : d1 = d0
      · subst h1
        by_cases h2 : d1 = d <;> simp [setEntry, lookupZone, h2]
      · by_cases h2 : d1 = d
        · subst h2
          have h3 : ¬d0 = d1 := fun e => h1 e.symm
          simp [setEntry, lookupZone, h1, h3]
        · simp [setEntry, lookupZone, h1, h2, ih]

/-- `zone_id_for` after a `setEntry` update. -/
theorem zone_id_for_setEntry (s : Store) (d0 d : String) (zr : ZoneRecord) :
    zone_id_for (setEntry s d0 zr) d = if d0 = d then zr.zone_id else zone_id_for s d := by
  by_cases h : d0 = d <;> simp [zone_id_for, lookupZone_setEntry, h]

/-- A present entry determines `zone_id_for`. -/
theorem zone_id_for_eq (s : Store) (d : String) (zr : ZoneRecord)
    (h : lookupZone s d = some zr) : zone_id_for s d = zr.zone_id := by
  simp [zone_id_for, h]

/-- Exhaustive description of `addZoneDomain`'s four paths: skip on a stored
non-empty zone id; otherwise create (success), create plus fetch-by-name
("already exists"), or create with the state untouched (other error). -/
theorem addZoneDomain_cases (env : String → CreateZoneResp) (s : Store) (d0 : String) :
    (zone_id_for s d0 ≠ "" ∧ addZoneDomain env s d0 = (s, [])) ∨
    (zone_id_for s d0 = "" ∧
      ((∃ z n1 n2, env d0 = .ok z n1 n2 ∧
          addZoneDomain env s d0 = (setEntry s d0 ⟨z, n1, n2⟩, [.cfCreateZone d0])) ∨
       (∃ z n1 n2, env d0 = .already z n1 n2 ∧
          addZoneDomain env s d0 =
            (setEntry s d0 ⟨z, n1, n2⟩, [.cfCreateZone d0, .cfGetZoneByName d0])) ∨
       (∃ m, env d0 = .failed m ∧ addZoneDomain env s d0 = (s, [.cfCreateZone d0])))) := by
  by_cases h : zone_id_for s d0 = ""
  · right
    refine ⟨h, ?_⟩
    rcases he : env d0 with ⟨z, n1, n2⟩ | ⟨z, n1, n2⟩ | m
    · exact Or.inl ⟨z, n1, n2, rfl, by simp [addZoneDomain, h, he]⟩
    · exact Or.inr (Or.inl ⟨z, n1, n2, rfl, by simp [addZoneDomain, h, he]⟩)
    · exact Or.inr (Or.inr ⟨m, rfl, by simp [addZoneDomain, h, he]⟩)
  · exact Or.inl ⟨h, by simp [addZoneDomain, h]⟩

/-- Unfolding of the `step_add_zones` loop at a cons cell. -/
theorem step_add_zones_cons (env : String → CreateZoneResp) (s : Store) (d : String)
    (ds : List String) :
    step_add_zones env s (d :: ds) =
      ((step_add_zones env (addZoneDomain env s d).1 ds).1,
       (addZoneDomain env s d).2 ++ (step_add_zones env (addZoneDomain env s d).1 ds).2) := by
  rcases h : addZoneDomain env s d with ⟨s1, t1⟩
  simp [step_add_zones, h]

/-- One `addZoneDomain` iteration preserves any entry with a non-empty zone
id (it only ever writes the key of a domain whose stored id is empty). -/
theorem addZoneDomain_preserves (env : String → CreateZoneResp) (s : Store) (d0 d : String)
    (zr : ZoneRecord) (h : lookupZone s d = some zr) (hz : zr.zone_id ≠ "") :
    lookupZone (addZoneDomain env s d0).1 d = some zr := by
  rcases addZoneDomain_cases env s d0 with ⟨_, he⟩ | ⟨h0, hcase⟩
  · rw [he]; exact h
  · have hd : d0 ≠ d := by
      intro e
      subst e
      exact hz ((zone_id_for_eq s d0 zr h).symm.trans h0)
    rcases hcase with ⟨z, n1, n2, _, heq⟩ | ⟨z, n1, n2, _, heq⟩ | ⟨m, _, heq⟩ <;>
      rw [heq] <;> simp [lookupZone_setEntry, hd, h]

/-- A zone-create call issued by one `addZoneDomain` iteration is for that
iteration's own domain, and only when its stored zone id was empty. -/
theorem addZoneDomain_create_mem (env : String → CreateZoneResp) (s : Store) (d0 d : String)
    (h : ApiCall.cfCreateZone d ∈ (addZoneDomain env s d0).2) :
    d = d0 ∧ zone_id_for s d0 = "" := by
  rcases addZoneDomain_cases env s d0 with ⟨_, he⟩ | ⟨h0, hcase⟩
  · rw [he] at h
    exact absurd h (List.not_mem_nil _)
  · rcases hcase with ⟨z, n1, n2, _, heq⟩ | ⟨z, n1, n2, _, heq⟩ | ⟨m, _, heq⟩ <;>
      rw [heq] at h <;> simp at h <;> exact ⟨h, h0⟩

/-- If a domain's stored zone id is empty after one `addZoneDomain`
iteration, it was empty before the iteration as well. -/
theorem addZoneDomain_back (env : String → CreateZoneResp) (s : Store) (d0 d : String)
    (h : zone_id_for (addZoneDomain env s d0).1 d = "") : zone_id_for s d = "" := by
  rcases addZoneDomain_cases env s d0 with ⟨_, he⟩ | ⟨h0, hcase⟩
  · rw [he] at h; exact h
  · rcases hcase with ⟨z, n1, n2, _, heq⟩ | ⟨z, n1, n2, _, heq⟩ | ⟨m, _, heq⟩ <;>
      rw [heq] at h
    · rw [zone_id_for_setEntry] at h
      by_cases hd : d0 = d
      · rw [← hd]; exact h0
      · rw [if_neg hd] at h; exact h
    · rw [zone_id_for_setEntry] at h
      by_cases hd : d0 = d
      · rw [← hd]; exact h0
      · rw [if_neg hd] at h; exact h
    · exact h

/-- One `addZoneDomain` iteration never empties a non-empty stored zone id. -/
theorem addZoneDomain_keeps (env : String → CreateZoneResp) (s : Store) (d0 d : String)
    (h : zone_id_for s d ≠ "") : zone_id_for (addZoneDomain env s d0).1 d ≠ "" :=
  fun he => h (addZoneDomain_back env s d0 d he)

/-- The `step_add_zones` loop preserves any entry with a non-empty zone id. -/
theorem step_add_zones_preserves (env : String → CreateZoneResp) :
    ∀ (ds : List String) (s : Store) (d : String) (zr : ZoneRecord),
      lookupZone s d = some zr → zr.zone_id ≠ "" →
      lookupZone (step_add_zones env s ds).1 d = some zr := by
  intro ds
  induction ds with
  | nil => intro s d zr h _; simpa [step_add_zones] using h
  | cons d0 rest ih =>
      intro s d zr h hz
      rw [step_add_zones_cons]
      exact ih _ d zr (addZoneDomain_preserves env s d0 d zr h hz) hz

/-- The `step_add_zones` loop never empties a non-empty stored zone id. -/
theorem step_add_zones_keeps (env : String → CreateZoneResp) :
    ∀ (ds : List String) (s : Store) (d : String), zone_id_for s d ≠ "" →
      zone_id_for (step_add_zones env s ds).1 d ≠ "" := by
  intro ds
  induction ds with
  | nil => intro s d h; simpa [step_add_zones] using h
  | cons d0 rest ih =>
      intro s d h
      rw [step_add_zones_cons]
      exact ih _ d (addZoneDomain_keeps env s d0 d h)

/-- No zone-create call is issued for a domain whose entry holds a non-empty
zone id. -/
theorem step_add_zones_no_create (env : String → CreateZoneResp) :
    ∀ (ds : List String) (s : Store) (d : String) (zr : ZoneRecord),
      lookupZone s d = some zr → zr.zone_id ≠ "" →
      ApiCall.cfCreateZone d ∉ (step_add_zones env s ds).2 := by
  intro ds
  induction ds with
  | nil => intro s d zr _ _; simp [step_add_zones]
  | cons d0 rest ih =>
      intro s d zr h hz hmem
      rw [step_add_zones_cons, List.mem_append] at hmem
      rcases hmem with h1 | h2
      · obtain ⟨rfl, h0⟩ := addZoneDomain_create_mem env s d0 d h1
        exact hz ((zone_id_for_eq s d zr h).symm.trans h0)
      · exact ih _ d zr (addZoneDomain_preserves env s d0 d zr h hz) hz h2

/-- Every zone-create call of a `step_add_zones` run is for a domain whose
stored zone id was empty when the run started. -/
theorem step_add_zones_creates_only_missing (env : String → CreateZoneResp) :
    ∀ (ds : List String) (s : Store) (d : String),
      ApiCall.cfCreateZone d ∈ (step_add_zones env s ds).2 → zone_id_for s d = "" := by
  intro ds
  induction ds with
  | nil => intro s d h; simp [step_add_zones] at h
  | cons d0 rest ih =>
      intro s d h
      rw [step_add_zones_cons, List.mem_append] at h
      rcases h with h1 | h2
      · obtain ⟨rfl, h0⟩ := addZoneDomain_create_mem env s d0 d h1
        exact h0
      · exact addZoneDomain_back env s d0 d (ih _ d h2)

/-- After a run in which every domain's zone creation resolves, every listed
domain holds a non-empty zone id. -/
theorem step_add_zones_resolves (env : String → CreateZoneResp) :
    ∀ (ds : List String) (s : Store), envGood env ds →
      ∀ d ∈ ds, zone_id_for (step_add_zones env s ds).1 d ≠ "" := by
  intro ds
  induction ds with
  | nil => intro s _ d hd; exact absurd hd (List.not_mem_nil d)
  | cons d0 rest ih =>
      intro s hg d hd
      rw [step_add_zones_cons]
      rcases List.mem_cons.mp hd with rfl | hd2
      · apply step_add_zones_keeps
        rcases addZoneDomain_cases env s d with ⟨hne, he⟩ | ⟨h0, hcase⟩
        · rw [he]; exact hne
        · have hr : respResolves (env d) = true := hg d (List.mem_cons_self d rest)
          rcases hcase with ⟨z, n1, n2, he, heq⟩ | ⟨z, n1, n2, he, heq⟩ | ⟨m, he, heq⟩ <;>
            rw [he] at hr <;> simp [respResolves] at hr
          · rw [heq, zone_id_for_setEntry, if_pos rfl]
            exact hr
          · rw [heq, zone_id_for_setEntry, if_pos rfl]
            exact hr
      · exact ih _ (fun x hx => hg x (List.mem_cons_of_mem d0 hx)) d hd2

/-- A `step_add_zones` run over a store in which every listed domain already
holds a non-empty zone id leaves the store untouched and issues no call. -/
theorem step_add_zones_noop (env : String → CreateZoneResp) :
    ∀ (ds : List String) (s : Store), (∀ d ∈ ds, zone_id_for s d ≠ "") →
      step_add_zones env s ds = (s, []) := by
  intro ds
  induction ds with
  | nil => intro s _; rfl
  | cons d0 rest ih =>
      intro s h
      have h0 : addZoneDomain env s d0 = (s, []) := by
        simp [addZoneDomain, h d0 (List.mem_cons_self d0 rest)]
      rw [step_add_zones_cons, h0]
      simp [ih s (fun x hx => h x (List.mem_cons_of_mem d0 hx))]

/-- C1: add-zones is idempotent.  A domain already in the state store with a
non-empty zone id is skipped: the run issues no zone-create call for it and
its ZoneRecord is unchanged; every zone-create call of any run is for a
domain whose stored zone id was empty; and after a run in which every
domain's creation resolved (created, or found via the "already exists"
fallback), a second run leaves the store untouched and issues no API call at
all — running add-zones twice never creates a duplicate zone. -/
theorem add_zones_idempotent (env : String → CreateZoneResp) (store : Store) :
    (∀ d zr, lookupZone store d = some zr → zr.zone_id ≠ "" →
      lookupZone (step_add_zones env store DOMAINS).1 d = some zr ∧
      ApiCall.cfCreateZone d ∉ (step_add_zones env store DOMAINS).2) ∧
    (∀ d, ApiCall.cfCreateZone d ∈ (step_add_zones env store DOMAINS).2 →
      zone_id_for store d = "") ∧
    (envGood env DOMAINS →
      step_add_zones env (step_add_zones env store DOMAINS).1 DOMAINS =
        ((step_add_zones env store DOMAINS).1, [])) :=
  ⟨fun d zr h hz => ⟨step_add_zones_preserves env DOMAINS store d zr h hz,
      step_add_zones_no_create env DOMAINS store d zr h hz⟩,
   fun d h => step_add_zones_creates_only_missing env DOMAINS store d h,
   fun hg => step_add_zones_noop env DOMAINS _ (step_add_zones_resolves env DOMAINS store hg)⟩

/-- An environment where every zone creation succeeds with a fresh id. -/
def envOkW : String → CreateZoneResp :=
  fun d => .ok ("zone-" ++ d) "ns1.example.net" "ns2.example.net"

/-- Witness for C1: a store already holding eewby.com keeps its ZoneRecord,
gets no zone-create call for it, and a second run is a no-op. -/
theorem add_zones_idempotent_witness :
    lookupZone (step_add_zones envOkW storeOne DOMAINS).1 "eewby.com" =
      some ⟨"z1", "ali.ns.cloudflare.com", "kia.ns.cloudflare.com"⟩ ∧
    ApiCall.cfCreateZone "eewby.com" ∉ (step_add_zones envOkW storeOne DOMAINS).2 ∧
    step_add_zones envOkW (step_add_zones envOkW storeOne DOMAINS).1 DOMAINS =
      ((step_add_zones envOkW storeOne DOMAINS).1, []) := by
  have h := add_zones_idempotent envOkW storeOne
  have h1 := h.1 "eewby.com" ⟨"z1", "ali.ns.cloudflare.com", "kia.ns.cloudflare.com"⟩
    (by decide) (by decide)
  exact ⟨h1.1, h1.2, h.2.2 (by decide)⟩

end CloudflareMigration
